import Mathlib

/-!
# Verification of the platform-idp template clone / sync engine

A shallow embedding of the template-drift checker (route handler `GET`,
`src/unnamed/part_003`) and of the `GitHubRepoCloner` class
(`src/lib/github/repo-cloner.ts`): `cloneAsTemplate`, `createTree` /
`createBlobWithRetry`, and `syncWithTemplate`.

GitHub API calls are interpreted against an explicit environment record:
each field models the answer the remote host would give to one API call
(branch heads, blob creation success per attempt, tree-creation success,
pull-request creation success, ...).  Side effects that write to the host
are recorded in an event trace.  Timestamps (`author.date` values) are
modelled as natural numbers; commit timestamps returned by the API are
totally ordered, which the JavaScript `Date` comparison on well-formed ISO
strings also is.
-/

/-! ## String helpers

The source uses JavaScript regular expressions and `String#includes`.
We model them over `List Char`. -/

/-- `charPref p s` : does `s` start with `p`?  Models the `/^pat/` anchor
of the skip-pattern regexes. -/
def charPref : List Char → List Char → Bool
  | [], _ => true
  | _ :: _, [] => false
  | p :: ps, c :: cs => p == c && charPref ps cs

/-- `charContains pat hay` : does `pat` occur as a contiguous substring of
`hay`?  Models JavaScript `String#includes`. -/
def charContains (pat : List Char) : List Char → Bool
  | [] => charPref pat []
  | c :: cs => charPref pat (c :: cs) || charContains pat cs

/-- `substrContains hay pat` : `hay.includes(pat)` of the source. -/
def substrContains (hay pat : String) : Bool :=
  charContains pat.data hay.data

/-- `strStarts s p` : `s` starts with `p`; models a `/^p/` regex test. -/
def strStarts (s p : String) : Bool :=
  charPref p.data s.data

/-- ASCII-lowering of a string; models the case-insensitive (`i`) regex
flag by comparing lowered strings. -/
def lowerStr (s : String) : String :=
  String.mk (s.data.map Char.toLower)

/-! ## Data model -/

/-- A file of a repository tree: `{ path, content }` as produced by
`getAllFiles` (repo-cloner.ts lines 433-523). -/
structure FileEntry where
  path : String
  content : String
deriving Repr, DecidableEq

/-- A commit as returned by `repos.listCommits`: its sha, message and the
author name / date used by the drift check and the pull-request body. -/
structure CommitInfo where
  sha : String
  message : String
  authorName : String
  authorDate : Nat
deriving Repr, DecidableEq

/-! ## Drift check (`GET`, src/unnamed/part_003 lines 92-148)

The route fetches the template's latest commit (`per_page: 1`), one page of
the target project's history (`per_page: 100`), scans it for the most
recent sync-anchor commit and compares author dates. -/

/-- Environment of one drift check: the template's commit list (newest
first, on the tracked branch), the target project's commit list (newest
first) and the project's `createdAt` timestamp. -/
structure DriftEnv where
  templateCommits : List CommitInfo
  projectCommits : List CommitInfo
  projectCreatedAt : Nat

/-- part_003 lines 118-121: a commit anchors a sync if its message
contains `sync-template` or `Initial commit from template`. -/
def isSyncAnchor (c : CommitInfo) : Bool :=
  substrContains c.message "sync-template" ||
  substrContains c.message "Initial commit from template"

/-- The bounded page of target history the route scans
(`per_page: 100`, line 114). -/
def scannedHistory (env : DriftEnv) : List CommitInfo :=
  env.projectCommits.take 100

/-- part_003 line 118: `projectCommits.find(...)` — the first (most
recent) anchor commit of the scanned page. -/
def anchorCommit (env : DriftEnv) : Option CommitInfo :=
  (scannedHistory env).find? isSyncAnchor

/-- part_003 lines 134-136: the anchor commit's author date, or the
project's creation time when no anchor exists. -/
def lastSyncDate (env : DriftEnv) : Nat :=
  match anchorCommit env with
  | some c => c.authorDate
  | none => env.projectCreatedAt

/-- The part of the route's response the claims are about. -/
structure DriftResult where
  hasUpdates : Bool
  latestSha : Option String
deriving Repr, DecidableEq

/-- part_003 lines 100-148: no template commit yields
`hasUpdates: false`; otherwise `hasUpdates` is the strict date
comparison `templateCommitDate > lastSyncDate` (line 138). -/
def driftCheck (env : DriftEnv) : DriftResult :=
  match env.templateCommits.head? with
  | none => { hasUpdates := false, latestSha := none }
  | some latest =>
      { hasUpdates := decide (lastSyncDate env < latest.authorDate)
        latestSha := some latest.sha }

/-! ## `cloneAsTemplate` (repo-cloner.ts lines 30-45)

`cloneAsTemplate` composes two large effectful strategies with
try/catch.  The strategies themselves are opaque network interactions;
the embedding takes their outcomes as inputs and models only the
composition the claim is about. -/

/-- The `{ repository, filesCount, message }` success value returned by
either clone strategy (`success: true` is implicit in `Except.ok`). -/
structure CloneResult where
  repository : String
  filesCount : Nat
  message : String
deriving Repr, DecidableEq

/-- Outcomes of the two clone strategies of one `cloneAsTemplate` call:
`contents` is what `cloneUsingContentsAPI` would do, `git` what
`cloneUsingGitAPI` would do (`Except.error` carries `error.message`). -/
structure CloneStrategies where
  contents : Except String CloneResult
  git : Except String CloneResult

/-- repo-cloner.ts lines 30-45: try the Contents strategy; on failure try
the Git strategy; if both fail, raise an error reporting the fallback's
message. -/
def cloneAsTemplate (s : CloneStrategies) : Except String CloneResult :=
  match s.contents with
  | Except.ok r => Except.ok r
  | Except.error _ =>
      match s.git with
      | Except.ok r => Except.ok r
      | Except.error e =>
          Except.error
            ("Failed to clone repository using both methods. Last error: " ++ e)

/-! ## Tree building (repo-cloner.ts lines 546-621)

`createTree` turns a file list into a git tree: one blob per file (each
blob write retried up to 3 times), then one tree-creation call with an
optional `base_tree`.  The environment says, per file path and 0-based
attempt index, whether the blob API call succeeds, and whether the
tree-creation call succeeds for a given `base_tree` argument.

The source processes blobs in batches of 5 under `Promise.all` with a
500 ms pause between batches; a rejected blob promise rejects its batch
and aborts the remaining batches.  The embedding sequentializes this:
the first file (in list order) whose blob creation exhausts its retries
determines the error, and no tree is produced — which files succeed or
fail is a per-file property, so batch boundaries do not change the
result. -/

/-- One entry of the tree sent to `git.createTree`
(`{ path, mode: '100644', type: 'blob', sha }`; the constant mode and
type fields are omitted). -/
structure TreeEntry where
  path : String
  sha : String
deriving Repr, DecidableEq

/-- The created tree: its sha and its entries. -/
structure TreeData where
  sha : String
  entries : List TreeEntry
deriving Repr, DecidableEq

/-- Events written to the host, in order.  `calledCreateTree` records a
`git.createTree` invocation and the `base_tree` argument it was given. -/
inductive GitEvent where
  | createdRef : String → String → GitEvent
  | createdCommit : String → String → List String → String → GitEvent
  | updatedRef : String → String → GitEvent
  | createdPullRequest : String → String → String → String → GitEvent
  | calledCreateTree : Option String → GitEvent
deriving Repr, DecidableEq

/-- The host-side environment one `syncWithTemplate` call runs against.
Each field answers one kind of API call. -/
structure SyncEnv where
  /-- `targetRepoData.default_branch` (`none` models a missing field;
  the source falls back to `'main'`). -/
  targetDefaultBranch : Option String
  /-- The template's commit list, newest first, on its default branch
  (`repos.listCommits` with `per_page: 1` takes the head). -/
  templateCommits : List CommitInfo
  /-- The file list `getAllFiles` (lines 433-523) returns for the
  template; its internal failure modes (missing ref, empty repository)
  yield `[]`. -/
  templateFiles : List FileEntry
  /-- `git.getRef heads/b`: head commit sha of each existing branch of
  the target (`none` = 404). -/
  branchHead : String → Option String
  /-- `git.getCommit`: the tree sha of a commit. -/
  treeOf : String → String
  /-- Whether the `git.createBlob` call for a given file path succeeds
  on a given 0-based attempt. -/
  blobOk : String → Nat → Bool
  /-- The blob sha the host assigns to a content. -/
  blobSha : String → String
  /-- `error.message` of a failed blob creation for a given path. -/
  blobErrMsg : String → String
  /-- Whether the `git.createTree` call succeeds for a given `base_tree`
  argument. -/
  treeApiOk : Option String → Bool
  /-- `error.message` of a failed tree creation. -/
  treeErrMsg : Option String → String
  /-- The tree sha the host assigns. -/
  newTreeSha : Option String → List TreeEntry → String
  /-- The commit sha the host assigns (message, tree sha, parents). -/
  newCommitSha : String → String → List String → String
  /-- Whether `pulls.create` succeeds. -/
  prOk : Bool
  /-- `html_url` of the created pull request. -/
  prUrl : String
  /-- The formatted timestamp used in generated sync branch names
  (`new Date().toISOString()` reformatted, line 708). -/
  nowTimestamp : String

/-- Backoff before retry `i+1` of a blob write: `2000 * (i + 1)` ms
(repo-cloner.ts line 567) — linearly increasing. -/
def blobRetryDelay (i : Nat) : Nat := 2000 * (i + 1)

/-- The retry loop of `createBlobWithRetry` (lines 551-571): `fuel`
attempts remain, `i` is the 0-based index of the next attempt.  Returns
the outcome and the list of backoff delays slept.  On the final failed
attempt the API error is re-raised (line 562-564); no file is skipped. -/
def createBlobAttempts (env : SyncEnv) (file : FileEntry) :
    Nat → Nat → Except String String × List Nat
  | 0, _ => (Except.error (env.blobErrMsg file.path), [])
  | fuel + 1, i =>
      if env.blobOk file.path i then
        (Except.ok (env.blobSha file.content), [])
      else if fuel == 0 then
        (Except.error (env.blobErrMsg file.path), [])
      else
        let rest := createBlobAttempts env file fuel (i + 1)
        (rest.1, blobRetryDelay i :: rest.2)

/-- `createBlobWithRetry` with its default `retries = 3` (line 551). -/
def createBlobWithRetry (env : SyncEnv) (file : FileEntry) :
    Except String String × List Nat :=
  createBlobAttempts env file 3 0

/-- Blob creation for every file (lines 573-597).  A file whose blob
creation exhausts its retries rejects the whole run: the error
propagates and no entry list is produced. -/
def buildTreeEntries (env : SyncEnv) : List FileEntry → Except String (List TreeEntry)
  | [] => Except.ok []
  | f :: fs =>
      match (createBlobWithRetry env f).1 with
      | Except.error e => Except.error e
      | Except.ok sha =>
          match buildTreeEntries env fs with
          | Except.error e => Except.error e
          | Except.ok rest => Except.ok ({ path := f.path, sha := sha } :: rest)

/-- `createTree` (lines 546-621): create all blobs, then one
`git.createTree` call with the optional `base_tree`. -/
def createTree (env : SyncEnv) (files : List FileEntry) (baseTree : Option String) :
    Except String TreeData :=
  match buildTreeEntries env files with
  | Except.error e => Except.error e
  | Except.ok entries =>
      if env.treeApiOk baseTree then
        Except.ok { sha := env.newTreeSha baseTree entries, entries := entries }
      else
        Except.error (env.treeErrMsg baseTree)

/-! ## `syncWithTemplate` (repo-cloner.ts lines 642-884) -/

/-- The options record of `syncWithTemplate` with the source's default
values made explicit. -/
structure SyncOptions where
  sourceOwner : String
  sourceRepo : String
  targetOwner : String
  targetRepo : String
  targetBranch : Option String
  createPullRequest : Bool
  commitMessage : Option String
  directToMain : Bool

/-- The success value of `syncWithTemplate` (`success: true` implicit in
`Except.ok`; `syncBranch` and `pullRequestUrl` are absent on the
nothing-to-sync path and when no PR was created). -/
structure SyncResult where
  filesCount : Nat
  syncBranch : Option String
  pullRequestUrl : Option String
  message : String
deriving Repr, DecidableEq

/-- Step 4 (lines 699-710): the name of the branch the sync writes to. -/
def syncBranchNameOf (env : SyncEnv) (opts : SyncOptions) (defaultBranch : String) : String :=
  if opts.directToMain then defaultBranch
  else
    match opts.targetBranch with
    | some b => b
    | none => "sync-template-" ++ env.nowTimestamp

/-- The skip patterns of step 8 (lines 787-796): `/^\.git\//`,
`/^node_modules\//`, `/^\.env/`, `/^README\.md$/i`, `/^LICENSE$/i`. -/
def isSkippedPath (p : String) : Bool :=
  strStarts p ".git/" || strStarts p "node_modules/" || strStarts p ".env" ||
  lowerStr p == "readme.md" || lowerStr p == "license"

/-- `filesToSync` of step 8: the template files minus the denylist. -/
def filesToSyncOf (env : SyncEnv) : List FileEntry :=
  env.templateFiles.filter (fun f => !(isSkippedPath f.path))

/-- The machine-readable sync marker trailer `template-sha: <sha>` the
drift check later scans for. -/
def templateShaTrailer (sha : String) : String :=
  "template-sha: " ++ sha

/-- The default sync commit message (lines 818-820), which embeds the
template's latest commit sha as a `template-sha:` trailer. -/
def defaultCommitMessage (opts : SyncOptions) (templateSha : String) : String :=
  "Sync with template " ++ opts.sourceOwner ++ "/" ++ opts.sourceRepo ++
  "\n\n" ++ templateShaTrailer templateSha

/-- `commitMessage || default` (line 818): JavaScript `||` uses the
default both when the option is absent and when it is the empty string
(which is falsy). -/
def chosenCommitMessage (opts : SyncOptions) (templateSha : String) : String :=
  match opts.commitMessage with
  | some s => if s == "" then defaultCommitMessage opts templateSha else s
  | none => defaultCommitMessage opts templateSha

/-- Pull request title (line 841). -/
def prTitleOf (opts : SyncOptions) : String :=
  "[sync-template] Update from " ++ opts.sourceOwner ++ "/" ++ opts.sourceRepo

/-- Pull request body (lines 842-860).  The model renders the commit
date numerically; the only fact the claims use is the embedded
`<!-- template-sha: ... -->` trailer. -/
def prBodyOf (opts : SyncOptions) (latest : CommitInfo) (fileCount : Nat) : String :=
  "This pull request syncs your project with the latest changes from the template repository.\n\n" ++
  "## Template Information\n" ++
  "- **Template**: " ++ opts.sourceOwner ++ "/" ++ opts.sourceRepo ++ "\n" ++
  "- **Template Commit**: " ++ latest.sha ++ "\n" ++
  "- **Files Updated**: " ++ toString fileCount ++ "\n\n" ++
  "## Latest Template Commit\n" ++
  "- **Message**: " ++ latest.message ++ "\n" ++
  "- **Author**: " ++ latest.authorName ++ "\n" ++
  "- **Date**: " ++ toString latest.authorDate ++ "\n\n" ++
  "## Review Guidelines\n" ++
  "Please review the changes carefully before merging:\n" ++
  "1. Check for any conflicts with your local modifications\n" ++
  "2. Ensure the updates don't break your existing functionality\n" ++
  "3. Test the changes in a development environment if possible\n\n" ++
  "<!-- " ++ templateShaTrailer latest.sha ++ " -->"

/-- The body of `syncWithTemplate`'s `try` block (lines 672-879),
returning the result (or the raised `error.message`) together with the
trace of host writes. -/
def syncWithTemplateInner (env : SyncEnv) (opts : SyncOptions) :
    Except String SyncResult × List GitEvent :=
  -- Step 1: target default branch (`default_branch || 'main'`).
  let defaultBranch := env.targetDefaultBranch.getD "main"
  -- Step 3: latest template commit (`per_page: 1`); none → throw.
  match env.templateCommits.head? with
  | none => (Except.error "No commits found in template repository", [])
  | some latest =>
    -- Step 4: branch name.
    let syncBranchName := syncBranchNameOf env opts defaultBranch
    -- Step 5: template files; an empty list returns early with no writes.
    if env.templateFiles.isEmpty then
      (Except.ok { filesCount := 0, syncBranch := none, pullRequestUrl := none,
                   message := "Template repository is empty, nothing to sync" }, [])
    else
      -- Step 6: default-branch head; create the sync branch from it when
      -- it does not exist and differs from the default branch.
      match env.branchHead defaultBranch with
      | none => (Except.error "Not Found", [])
      | some defaultHeadSha =>
        let branchExists := (env.branchHead syncBranchName).isSome
        let doCreate := !branchExists && syncBranchName != defaultBranch
        let createEvents :=
          if doCreate then [GitEvent.createdRef syncBranchName defaultHeadSha] else []
        -- Step 7: current head of the sync branch.
        match (if doCreate then some defaultHeadSha else env.branchHead syncBranchName) with
        | none =>
            (Except.error ("Failed to get current state of branch " ++ syncBranchName),
             createEvents)
        | some headSha =>
          let baseTreeSha := env.treeOf headSha
          -- Step 8: denylist filter.
          let filesToSync := filesToSyncOf env
          -- Step 9: tree with the current tree as base; on failure,
          -- retried once without a base tree (lines 803-811).
          let firstTree := createTree env filesToSync (some baseTreeSha)
          let treeCalls :=
            match firstTree with
            | Except.ok _ => [GitEvent.calledCreateTree (some baseTreeSha)]
            | Except.error _ =>
                [GitEvent.calledCreateTree (some baseTreeSha), GitEvent.calledCreateTree none]
          let treeRes :=
            match firstTree with
            | Except.ok t => Except.ok t
            | Except.error _ => createTree env filesToSync none
          match treeRes with
          | Except.error e => (Except.error e, createEvents ++ treeCalls)
          | Except.ok tree =>
            -- Steps 10-11: commit on top of the branch head, then advance
            -- the branch ref.
            let message := chosenCommitMessage opts latest.sha
            let commitSha := env.newCommitSha message tree.sha [headSha]
            -- Step 12: pull request, only when requested and the sync
            -- branch is not the default branch; failure is logged only.
            let doPR := opts.createPullRequest && syncBranchName != defaultBranch
            let prEvents :=
              if doPR && env.prOk then
                [GitEvent.createdPullRequest (prTitleOf opts)
                  (prBodyOf opts latest filesToSync.length) syncBranchName defaultBranch]
              else []
            let prUrl := if doPR && env.prOk then some env.prUrl else none
            (Except.ok { filesCount := filesToSync.length,
                         syncBranch := some syncBranchName,
                         pullRequestUrl := prUrl,
                         message := "Successfully synced with template " ++
                                    opts.sourceOwner ++ "/" ++ opts.sourceRepo },
             createEvents ++ treeCalls ++
               [GitEvent.createdCommit message tree.sha [headSha] commitSha,
                GitEvent.updatedRef syncBranchName commitSha] ++ prEvents)

/-- `syncWithTemplate` (lines 642-884): the `try` body with the outer
catch (lines 880-883) wrapping any raised error. -/
def syncWithTemplate (env : SyncEnv) (opts : SyncOptions) :
    Except String SyncResult × List GitEvent :=
  match syncWithTemplateInner env opts with
  | (Except.ok r, tr) => (Except.ok r, tr)
  | (Except.error e, tr) =>
      (Except.error ("Failed to sync with template: " ++ e), tr)

/-! ## Concrete environments used to witness the theorems -/

/-- A template commit. -/
def tplCommitW : CommitInfo :=
  { sha := "a1b2c3", message := "Add feature", authorName := "Alice", authorDate := 500 }

/-- A syncable template file. -/
def fileGoodW : FileEntry := { path := "src/app.ts", content := "code" }

/-- A denylisted template file. -/
def fileReadmeW : FileEntry := { path := "README.md", content := "docs" }

/-- A file whose blob creation always fails. -/
def fileBadW : FileEntry := { path := "bad.txt", content := "binary" }

/-- A well-behaved host: one template commit, two template files (one
denylisted), an existing `main` branch, every write succeeding. -/
def envW : SyncEnv where
  targetDefaultBranch := some "main"
  templateCommits := [tplCommitW]
  templateFiles := [fileGoodW, fileReadmeW]
  branchHead := fun b => if b == "main" then some "defhead" else none
  treeOf := fun _ => "basetree"
  blobOk := fun _ _ => true
  blobSha := fun c => "blob-" ++ c
  blobErrMsg := fun p => "blob failed: " ++ p
  treeApiOk := fun _ => true
  treeErrMsg := fun _ => "tree failed"
  newTreeSha := fun _ _ => "newtree"
  newCommitSha := fun _ _ _ => "newcommit"
  prOk := true
  prUrl := "https://example.com/pr/1"
  nowTimestamp := "2026-10-11T00-00-00"

/-- `envW` but pull-request creation fails. -/
def envPrFailW : SyncEnv := { envW with prOk := false }

/-- `envW` but the template has no commits at all. -/
def envNoCommitsW : SyncEnv := { envW with templateCommits := [] }

/-- `envW` but the template yields no files. -/
def envNoFilesW : SyncEnv := { envW with templateFiles := [] }

/-- `envW` but tree creation fails whenever a `base_tree` is supplied. -/
def envStaleBaseW : SyncEnv := { envW with treeApiOk := fun b => b.isNone }

/-- `envW` but blob creation for `bad.txt` fails on every attempt, and
the template holds `bad.txt` alongside a good file. -/
def envBlobFailW : SyncEnv :=
  { envW with
      templateFiles := [fileBadW, fileGoodW]
      blobOk := fun p _ => p != "bad.txt" }

/-- Default `syncWithTemplate` options: no target branch, pull request
requested, no custom commit message, not direct-to-main. -/
def optsW : SyncOptions :=
  { sourceOwner := "tplo", sourceRepo := "tplr",
    targetOwner := "tgto", targetRepo := "tgtr",
    targetBranch := none, createPullRequest := true,
    commitMessage := none, directToMain := false }

/-- `optsW` with `directToMain: true`. -/
def optsDirectW : SyncOptions := { optsW with directToMain := true }

/-- `optsW` with a custom commit message. -/
def optsCustomMsgW : SyncOptions :=
  { optsW with commitMessage := some "Custom message" }

/-- A `cloneAsTemplate` call in which both strategies fail. -/
def stratFailW : CloneStrategies :=
  { contents := Except.error "contents down", git := Except.error "git down" }

/-- A drift-check environment: the template's latest commit is newer
than the most recent sync-anchor commit of the target. -/
def driftEnvW : DriftEnv where
  templateCommits := [{ sha := "t100", message := "tpl tip", authorName := "A", authorDate := 400 }]
  projectCommits :=
    [{ sha := "p3", message := "local work", authorName := "B", authorDate := 350 },
     { sha := "p2", message := "[sync-template] Update from tplo/tplr", authorName := "B", authorDate := 300 },
     { sha := "p1", message := "Initial commit from template", authorName := "B", authorDate := 100 }]
  projectCreatedAt := 90

/-! ## `find?` characterization used by claim C1 -/

/-- `find?` returns `c` exactly when the list splits as `as ++ c :: bs`
with no earlier (more recent) element satisfying `p`. -/
theorem find?_eq_some_split {α : Type} (p : α → Bool) (xs : List α) (c : α) :
    xs.find? p = some c ↔
      ∃ as bs, xs = as ++ c :: bs ∧ p c = true ∧ ∀ a ∈ as, p a = false := by
  induction xs with
  | nil => simp [List.find?]
  | cons x xs ih =>
    constructor
    · intro h
      rw [List.find?] at h
      cases hp : p x with
      | true =>
        rw [hp] at h
        injection h with h
        exact ⟨[], xs, by simp [h], h ▸ hp, by simp⟩
      | false =>
        rw [hp] at h
        obtain ⟨as, bs, hsplit, hc, hnone⟩ := ih.mp h
        exact ⟨x :: as, bs, by simp [hsplit], hc, by
          intro a ha
          rcases List.mem_cons.mp ha with h1 | h2
          · exact h1 ▸ hp
          · exact hnone a h2⟩
    · rintro ⟨as, bs, hsplit, hc, hnone⟩
      cases as with
      | nil =>
        simp at hsplit
        rw [List.find?, hsplit.1, hc]
      | cons a as' =>
        simp at hsplit
        obtain ⟨hx, hrest⟩ := hsplit
        rw [List.find?, hx, hnone a (by simp)]
        exact ih.mpr ⟨as', bs, hrest, hc, fun y hy => hnone y (by simp [hy])⟩

/-- C1: for every drift check in which the template's latest commit is
retrievable, `hasUpdates` is `true` iff the template's latest-commit
timestamp is strictly greater than the timestamp of the most recent
scanned target commit whose message contains a sync marker
(`sync-template`) or the initial-import marker
(`Initial commit from template`), or, when no such anchor commit exists
in the scanned history, strictly greater than the target project's
creation time. -/
theorem drift_hasUpdates_iff (env : DriftEnv) (latest : CommitInfo)
    (h : env.templateCommits.head? = some latest) :
    (driftCheck env).hasUpdates = true ↔
      ((∃ c newer older, scannedHistory env = newer ++ c :: older ∧
          isSyncAnchor c = true ∧ (∀ a ∈ newer, isSyncAnchor a = false) ∧
          c.authorDate < latest.authorDate) ∨
       ((∀ c ∈ scannedHistory env, isSyncAnchor c = false) ∧
          env.projectCreatedAt < latest.authorDate)) := by
  unfold driftCheck
  rw [h]
  simp only [decide_eq_true_eq]
  unfold lastSyncDate anchorCommit
  cases hfind : (scannedHistory env).find? isSyncAnchor with
  | none =>
    have hall : ∀ c ∈ scannedHistory env, isSyncAnchor c = false := by
      intro c hc
      exact Bool.not_eq_true _ ▸ (List.find?_eq_none.mp hfind c hc)
    constructor
    · intro hlt
      exact Or.inr ⟨hall, hlt⟩
    · rintro (⟨c, newer, older, hsplit, hc, hnone, _⟩ | ⟨_, hlt⟩)
      · have : (scannedHistory env).find? isSyncAnchor = some c :=
          (find?_eq_some_split _ _ _).mpr ⟨newer, older, hsplit, hc, hnone⟩
        rw [hfind] at this
        exact absurd this (by simp)
      · exact hlt
  | some c =>
    obtain ⟨newer, older, hsplit, hc, hnone⟩ :=
      (find?_eq_some_split _ _ _).mp hfind
    constructor
    · intro hlt
      exact Or.inl ⟨c, newer, older, hsplit, hc, hnone, hlt⟩
    · rintro (⟨c2, newer2, older2, hsplit2, hc2, hnone2, hlt2⟩ | ⟨hall, _⟩)
      · have : (scannedHistory env).find? isSyncAnchor = some c2 :=
          (find?_eq_some_split _ _ _).mpr ⟨newer2, older2, hsplit2, hc2, hnone2⟩
        rw [hfind] at this
        injection this with this
        exact this ▸ hlt2
      · have hmem : c ∈ scannedHistory env := by
          rw [hsplit]
          exact List.mem_append.mpr (Or.inr (by simp))
        rw [hall c hmem] at hc
        exact absurd hc (by simp)

/-! ## Substring lemmas -/

/-- A list is a prefix-match of itself followed by anything. -/
lemma charPref_self_append (p post : List Char) : charPref p (p ++ post) = true := by
  induction p with
  | nil => rfl
  | cons c cs ih => simp [charPref, ih]

/-- A pattern occurs in any list that embeds it contiguously. -/
lemma charContains_factor (pat pre post : List Char) :
    charContains pat (pre ++ (pat ++ post)) = true := by
  induction pre with
  | nil =>
    rw [List.nil_append]
    cases h : pat ++ post with
    | nil =>
      have hp : pat = [] := (List.append_eq_nil.mp h).1
      simp [hp, charContains, charPref]
    | cons a as =>
      have hpref : charPref pat (a :: as) = true := by
        rw [← h]
        exact charPref_self_append pat post
      simp [charContains, hpref]
  | cons a as ih =>
    simp [charContains, ih]

/-- `substrContains` finds a pattern appended at the end. -/
lemma substrContains_append_right (pre pat : String) :
    substrContains (pre ++ pat) pat = true := by
  unfold substrContains
  rw [String.data_append]
  have h := charContains_factor pat.data pre.data []
  rwa [List.append_nil] at h

/-- `substrContains` finds a pattern embedded in the middle. -/
lemma substrContains_factor (pre pat post : String) :
    substrContains (pre ++ pat ++ post) pat = true := by
  unfold substrContains
  rw [String.data_append, String.data_append, List.append_assoc]
  exact charContains_factor pat.data pre.data post.data

/-- The default sync commit message embeds the `template-sha:` trailer. -/
lemma defaultCommitMessage_has_trailer (opts : SyncOptions) (sha : String) :
    substrContains (defaultCommitMessage opts sha) (templateShaTrailer sha) = true := by
  unfold defaultCommitMessage
  exact substrContains_append_right _ _

/-- The pull-request body embeds the `template-sha:` trailer. -/
lemma prBody_has_trailer (opts : SyncOptions) (latest : CommitInfo) (n : Nat) :
    substrContains (prBodyOf opts latest n) (templateShaTrailer latest.sha) = true := by
  unfold prBodyOf
  exact substrContains_factor _ _ _

/-! ## Tree-building lemmas -/

/-- A successful `buildTreeEntries` run yields one entry per input file,
with the same paths in the same order. -/
lemma buildTreeEntries_paths (env : SyncEnv) :
    ∀ files es, buildTreeEntries env files = Except.ok es →
      es.map TreeEntry.path = files.map FileEntry.path := by
  intro files
  induction files with
  | nil =>
    intro es h
    simp [buildTreeEntries] at h
    simp [← h]
  | cons f fs ih =>
    intro es h
    revert h
    cases hb : (createBlobWithRetry env f).1 with
    | error e => intro h; simp [buildTreeEntries, hb] at h
    | ok sha =>
      cases ht : buildTreeEntries env fs with
      | error e => intro h; simp [buildTreeEntries, hb, ht] at h
      | ok rest =>
        intro h
        simp [buildTreeEntries, hb, ht] at h
        simp [← h, ih rest ht]

/-- If any listed file's blob creation fails, `buildTreeEntries` fails. -/
lemma buildTreeEntries_mem_error (env : SyncEnv) (file : FileEntry) (msg : String)
    (hbad : (createBlobWithRetry env file).1 = Except.error msg) :
    ∀ files, file ∈ files → ∃ e, buildTreeEntries env files = Except.error e := by
  intro files
  induction files with
  | nil => intro h; cases h
  | cons g gs ih =>
    intro hmem
    cases hg : (createBlobWithRetry env g).1 with
    | error e => exact ⟨e, by simp [buildTreeEntries, hg]⟩
    | ok sha =>
      have hne2 : file ≠ g := by
        intro h
        rw [h, hg] at hbad
        cases hbad
      have hmem2 : file ∈ gs := by
        rcases List.mem_cons.mp hmem with h | h
        · exact absurd h hne2
        · exact h
      obtain ⟨e, he⟩ := ih hmem2
      exact ⟨e, by simp [buildTreeEntries, hg, he]⟩

/-! ## Claim theorems -/

/-- C1 witness: the drift-check characterization applied to a concrete
environment whose template tip (date 400) is newer than the most recent
sync-anchor commit (date 300). -/
theorem drift_hasUpdates_iff_applied :
    (driftCheck driftEnvW).hasUpdates = true ↔
      ((∃ c newer older, scannedHistory driftEnvW = newer ++ c :: older ∧
          isSyncAnchor c = true ∧ (∀ a ∈ newer, isSyncAnchor a = false) ∧
          c.authorDate < 400) ∨
       ((∀ c ∈ scannedHistory driftEnvW, isSyncAnchor c = false) ∧
          driftEnvW.projectCreatedAt < 400)) :=
  drift_hasUpdates_iff driftEnvW
    { sha := "t100", message := "tpl tip", authorName := "A", authorDate := 400 } rfl

/-- C2: `cloneAsTemplate` returns the success value of whichever strategy
succeeds first (Contents, then Git), and raises only when both fail, the
raised error reporting the fallback strategy's message. -/
theorem cloneAsTemplate_outcomes (s : CloneStrategies) :
    (∀ r, s.contents = Except.ok r → cloneAsTemplate s = Except.ok r) ∧
    (∀ e r, s.contents = Except.error e → s.git = Except.ok r →
      cloneAsTemplate s = Except.ok r) ∧
    (∀ e1 e2, s.contents = Except.error e1 → s.git = Except.error e2 →
      cloneAsTemplate s = Except.error
        ("Failed to clone repository using both methods. Last error: " ++ e2)) := by
  refine ⟨?_, ?_, ?_⟩ <;> intros <;> simp [cloneAsTemplate, *]

/-- C2 witness: both strategies fail on a concrete input and the raised
error carries the fallback's message. -/
theorem cloneAsTemplate_outcomes_applied :
    cloneAsTemplate stratFailW = Except.error
      ("Failed to clone repository using both methods. Last error: " ++ "git down") :=
  (cloneAsTemplate_outcomes stratFailW).2.2 "contents down" "git down" rfl rfl

/-- C4: no file surviving the sync denylist filter (the file set the
sync's tree is built from) starts with `.git/`, `node_modules/` or
`.env`, or equals `README.md` / `LICENSE` case-insensitively; and a
successfully built tree contains exactly the filtered files' paths. -/
theorem syncWithTemplate_denylist_excluded (env : SyncEnv) :
    (∀ f, f ∈ filesToSyncOf env →
       strStarts f.path ".git/" = false ∧ strStarts f.path "node_modules/" = false ∧
       strStarts f.path ".env" = false ∧ lowerStr f.path ≠ "readme.md" ∧
       lowerStr f.path ≠ "license") ∧
    (∀ baseTree t, createTree env (filesToSyncOf env) baseTree = Except.ok t →
       t.entries.map TreeEntry.path = (filesToSyncOf env).map FileEntry.path) := by
  constructor
  · intro f hf
    have h := (List.mem_filter.mp hf).2
    simp [isSkippedPath] at h
    exact ⟨h.1.1.1.1, h.1.1.1.2, h.1.1.2, h.1.2, h.2⟩
  · intro baseTree t h
    revert h
    unfold createTree
    cases hb : buildTreeEntries env (filesToSyncOf env) with
    | error e => intro h; cases h
    | ok entries =>
      cases hok : env.treeApiOk baseTree with
      | false => intro h; simp [hok] at h
      | true =>
        intro h
        simp [hok] at h
        rw [← h]
        exact buildTreeEntries_paths env _ _ hb

/-- C4 witness: the surviving file `src/app.ts` of the concrete
environment (whose template also holds `README.md`) matches no denylist
pattern. -/
theorem syncWithTemplate_denylist_excluded_applied :
    strStarts fileGoodW.path ".git/" = false ∧
    strStarts fileGoodW.path "node_modules/" = false ∧
    strStarts fileGoodW.path ".env" = false ∧
    lowerStr fileGoodW.path ≠ "readme.md" ∧
    lowerStr fileGoodW.path ≠ "license" :=
  (syncWithTemplate_denylist_excluded envW).1 fileGoodW (by decide)

/-- C5 counterexample: with `bad.txt` failing blob creation on every
attempt, `createTree` over `[bad.txt, src/app.ts]` raises the blob error
instead of completing over the remaining file, refuting the claim that
the failed file is excluded and tree building continues. -/
theorem createTree_blob_failure_cex :
    createTree envBlobFailW [fileBadW, fileGoodW] none =
      Except.error "blob failed: bad.txt" := by
  rfl

/-- C5 (amended): blob creation is attempted up to 3 times with linearly
increasing backoff (2000 ms times the attempt number); once the retries
are exhausted the blob error propagates: the file is reported
un-clonable but not excluded, and the whole tree build fails. -/
theorem createBlobWithRetry_exhaustion_propagates (env : SyncEnv) (file : FileEntry)
    (hfail : ∀ i, i < 3 → env.blobOk file.path i = false) :
    createBlobWithRetry env file =
      (Except.error (env.blobErrMsg file.path), [blobRetryDelay 0, blobRetryDelay 1]) ∧
    (∀ files baseTree, file ∈ files →
      ∃ e, createTree env files baseTree = Except.error e) := by
  have h0 := hfail 0 (by omega)
  have h1 := hfail 1 (by omega)
  have h2 := hfail 2 (by omega)
  have hb : createBlobWithRetry env file =
      (Except.error (env.blobErrMsg file.path), [blobRetryDelay 0, blobRetryDelay 1]) := by
    simp [createBlobWithRetry, createBlobAttempts, h0, h1, h2]
  refine ⟨hb, ?_⟩
  intro files baseTree hmem
  obtain ⟨e, he⟩ := buildTreeEntries_mem_error env file (env.blobErrMsg file.path)
    (by rw [hb]) files hmem
  exact ⟨e, by simp [createTree, he]⟩

/-- C5 witness: the concrete always-failing file uses all 3 attempts,
sleeping 2000 ms then 4000 ms, and ends in the blob error. -/
theorem createBlobWithRetry_exhaustion_propagates_applied :
    createBlobWithRetry envBlobFailW fileBadW =
      (Except.error (envBlobFailW.blobErrMsg fileBadW.path),
       [blobRetryDelay 0, blobRetryDelay 1]) :=
  (createBlobWithRetry_exhaustion_propagates envBlobFailW fileBadW (by decide)).1

/-- C6 counterexample: a sync against a template with no commits at all
raises (`No commits found in template repository`, wrapped by the outer
catch) instead of returning a success result, refuting the claim for
the empty-template case. -/
theorem syncWithTemplate_no_commits_cex :
    syncWithTemplate envNoCommitsW optsW =
      (Except.error "Failed to sync with template: No commits found in template repository",
       []) := by
  rfl

/-- C6 (amended): provided the template has at least one commit, a sync
whose template file enumeration yields no files returns success with
`filesCount: 0` and performs no writes (no branch, no commit). -/
theorem syncWithTemplate_empty_template_success (env : SyncEnv) (opts : SyncOptions)
    (latest : CommitInfo)
    (hlatest : env.templateCommits.head? = some latest)
    (hnofiles : env.templateFiles = []) :
    syncWithTemplate env opts =
      (Except.ok { filesCount := 0, syncBranch := none, pullRequestUrl := none,
                   message := "Template repository is empty, nothing to sync" }, []) := by
  simp [syncWithTemplate, syncWithTemplateInner, hlatest, hnofiles]

/-- C6 witness: the empty-file-list environment returns the
nothing-to-sync success with an empty write trace. -/
theorem syncWithTemplate_empty_template_success_applied :
    syncWithTemplate envNoFilesW optsW =
      (Except.ok { filesCount := 0, syncBranch := none, pullRequestUrl := none,
                   message := "Template repository is empty, nothing to sync" }, []) :=
  syncWithTemplate_empty_template_success envNoFilesW optsW tplCommitW rfl rfl

/-- C3: with default options (PR requested, no target branch, not
direct-to-main) against a template with a commit and at least one
syncable file, when the generated branch name is fresh: the branch is
created at the default-branch head, a commit whose message embeds the
`template-sha:` trailer becomes its head, and a pull request is opened
with that branch as head and the default branch as base, its body
embedding the same trailer. -/
theorem syncWithTemplate_default_flow
    (env : SyncEnv) (so sr tow trg db defSha : String) (latest : CommitInfo) (t : TreeData)
    (hdb : env.targetDefaultBranch = some db)
    (hlatest : env.templateCommits.head? = some latest)
    (hfresh : env.branchHead ("sync-template-" ++ env.nowTimestamp) = none)
    (hne : "sync-template-" ++ env.nowTimestamp ≠ db)
    (hdef : env.branchHead db = some defSha)
    (hfts : filesToSyncOf env ≠ [])
    (htree : createTree env (filesToSyncOf env) (some (env.treeOf defSha)) = Except.ok t)
    (hpr : env.prOk = true) :
    syncWithTemplate env (SyncOptions.mk so sr tow trg none true none false) =
      (Except.ok
        { filesCount := (filesToSyncOf env).length,
          syncBranch := some ("sync-template-" ++ env.nowTimestamp),
          pullRequestUrl := some env.prUrl,
          message := "Successfully synced with template " ++ so ++ "/" ++ sr },
       [GitEvent.createdRef ("sync-template-" ++ env.nowTimestamp) defSha,
        GitEvent.calledCreateTree (some (env.treeOf defSha)),
        GitEvent.createdCommit
          (defaultCommitMessage (SyncOptions.mk so sr tow trg none true none false) latest.sha)
          t.sha [defSha]
          (env.newCommitSha
            (defaultCommitMessage (SyncOptions.mk so sr tow trg none true none false) latest.sha)
            t.sha [defSha]),
        GitEvent.updatedRef ("sync-template-" ++ env.nowTimestamp)
          (env.newCommitSha
            (defaultCommitMessage (SyncOptions.mk so sr tow trg none true none false) latest.sha)
            t.sha [defSha]),
        GitEvent.createdPullRequest
          (prTitleOf (SyncOptions.mk so sr tow trg none true none false))
          (prBodyOf (SyncOptions.mk so sr tow trg none true none false) latest
            (filesToSyncOf env).length)
          ("sync-template-" ++ env.nowTimestamp) db]) ∧
    substrContains
      (defaultCommitMessage (SyncOptions.mk so sr tow trg none true none false) latest.sha)
      (templateShaTrailer latest.sha) = true ∧
    substrContains
      (prBodyOf (SyncOptions.mk so sr tow trg none true none false) latest
        (filesToSyncOf env).length)
      (templateShaTrailer latest.sha) = true := by
  have hfe : env.templateFiles.isEmpty = false := by
    rcases h : env.templateFiles with _ | ⟨f, fs⟩
    · exact absurd (by simp [filesToSyncOf, h]) hfts
    · simp [h]
  have hbne : (("sync-template-" ++ env.nowTimestamp) != db) = true := bne_iff_ne.mpr hne
  refine ⟨?_, defaultCommitMessage_has_trailer _ _, prBody_has_trailer _ _ _⟩
  simp only [syncWithTemplate, syncWithTemplateInner, syncBranchNameOf, chosenCommitMessage,
    hdb, Option.getD_some, hlatest, hfe, hdef, hfresh, hbne, htree, hpr]
  simp [hfresh, hbne, htree, hpr]

/-- C3 witness: the default-options sync against the concrete
environment creates the fresh branch, the trailer-bearing commit and
the pull request. -/
theorem syncWithTemplate_default_flow_applied :
    syncWithTemplate envW optsW =
      (Except.ok
        { filesCount := (filesToSyncOf envW).length,
          syncBranch := some ("sync-template-" ++ envW.nowTimestamp),
          pullRequestUrl := some envW.prUrl,
          message := "Successfully synced with template " ++ "tplo" ++ "/" ++ "tplr" },
       [GitEvent.createdRef ("sync-template-" ++ envW.nowTimestamp) "defhead",
        GitEvent.calledCreateTree (some (envW.treeOf "defhead")),
        GitEvent.createdCommit (defaultCommitMessage optsW tplCommitW.sha)
          "newtree" ["defhead"]
          (envW.newCommitSha (defaultCommitMessage optsW tplCommitW.sha) "newtree" ["defhead"]),
        GitEvent.updatedRef ("sync-template-" ++ envW.nowTimestamp)
          (envW.newCommitSha (defaultCommitMessage optsW tplCommitW.sha) "newtree" ["defhead"]),
        GitEvent.createdPullRequest (prTitleOf optsW)
          (prBodyOf optsW tplCommitW (filesToSyncOf envW).length)
          ("sync-template-" ++ envW.nowTimestamp) "main"]) ∧
    substrContains (defaultCommitMessage optsW tplCommitW.sha)
      (templateShaTrailer tplCommitW.sha) = true ∧
    substrContains (prBodyOf optsW tplCommitW (filesToSyncOf envW).length)
      (templateShaTrailer tplCommitW.sha) = true :=
  syncWithTemplate_default_flow envW "tplo" "tplr" "tgto" "tgtr" "main" "defhead"
    tplCommitW { sha := "newtree", entries := [{ path := "src/app.ts", sha := "blob-code" }] }
    rfl rfl (by decide) (by decide) (by decide) (by decide) rfl rfl

/-- C7: during a default-options sync, when tree creation with the
branch's current tree as `base_tree` fails, the build is retried exactly
once without a base tree (the trace shows exactly the two
`git.createTree` calls); the sync then succeeds if the retry succeeds
and fails only if the retry also fails. -/
theorem syncWithTemplate_base_tree_retry
    (env : SyncEnv) (so sr tow trg db defSha e1 : String) (latest : CommitInfo)
    (hdb : env.targetDefaultBranch = some db)
    (hlatest : env.templateCommits.head? = some latest)
    (hfresh : env.branchHead ("sync-template-" ++ env.nowTimestamp) = none)
    (hne : "sync-template-" ++ env.nowTimestamp ≠ db)
    (hdef : env.branchHead db = some defSha)
    (hfts : filesToSyncOf env ≠ [])
    (hbase : createTree env (filesToSyncOf env) (some (env.treeOf defSha)) = Except.error e1)
    (hpr : env.prOk = true) :
    (∀ e2, createTree env (filesToSyncOf env) none = Except.error e2 →
      syncWithTemplate env (SyncOptions.mk so sr tow trg none true none false) =
        (Except.error ("Failed to sync with template: " ++ e2),
         [GitEvent.createdRef ("sync-template-" ++ env.nowTimestamp) defSha,
          GitEvent.calledCreateTree (some (env.treeOf defSha)),
          GitEvent.calledCreateTree none])) ∧
    (∀ t, createTree env (filesToSyncOf env) none = Except.ok t →
      syncWithTemplate env (SyncOptions.mk so sr tow trg none true none false) =
        (Except.ok
          { filesCount := (filesToSyncOf env).length,
            syncBranch := some ("sync-template-" ++ env.nowTimestamp),
            pullRequestUrl := some env.prUrl,
            message := "Successfully synced with template " ++ so ++ "/" ++ sr },
         [GitEvent.createdRef ("sync-template-" ++ env.nowTimestamp) defSha,
          GitEvent.calledCreateTree (some (env.treeOf defSha)),
          GitEvent.calledCreateTree none,
          GitEvent.createdCommit
            (defaultCommitMessage (SyncOptions.mk so sr tow trg none true none false) latest.sha)
            t.sha [defSha]
            (env.newCommitSha
              (defaultCommitMessage (SyncOptions.mk so sr tow trg none true none false) latest.sha)
              t.sha [defSha]),
          GitEvent.updatedRef ("sync-template-" ++ env.nowTimestamp)
            (env.newCommitSha
              (defaultCommitMessage (SyncOptions.mk so sr tow trg none true none false) latest.sha)
              t.sha [defSha]),
          GitEvent.createdPullRequest
            (prTitleOf (SyncOptions.mk so sr tow trg none true none false))
            (prBodyOf (SyncOptions.mk so sr tow trg none true none false) latest
              (filesToSyncOf env).length)
            ("sync-template-" ++ env.nowTimestamp) db])) := by
  have hfe : env.templateFiles.isEmpty = false := by
    rcases h : env.templateFiles with _ | ⟨f, fs⟩
    · exact absurd (by simp [filesToSyncOf, h]) hfts
    · simp [h]
  have hbne : (("sync-template-" ++ env.nowTimestamp) != db) = true := bne_iff_ne.mpr hne
  constructor
  · intro e2 h2
    simp only [syncWithTemplate, syncWithTemplateInner, syncBranchNameOf, chosenCommitMessage,
      hdb, Option.getD_some, hlatest, hfe, hdef, hfresh, hbne, hbase, h2, hpr]
    simp [hfresh, hbne, hbase, h2]
  · intro t h2
    simp only [syncWithTemplate, syncWithTemplateInner, syncBranchNameOf, chosenCommitMessage,
      hdb, Option.getD_some, hlatest, hfe, hdef, hfresh, hbne, hbase, h2, hpr]
    simp [hfresh, hbne, hbase, h2, hpr]

/-- C7 witness: with tree creation failing whenever a base tree is
supplied, the concrete sync performs both `git.createTree` calls and
succeeds through the base-less retry. -/
theorem syncWithTemplate_base_tree_retry_applied :
    syncWithTemplate envStaleBaseW optsW =
      (Except.ok
        { filesCount := (filesToSyncOf envStaleBaseW).length,
          syncBranch := some ("sync-template-" ++ envStaleBaseW.nowTimestamp),
          pullRequestUrl := some envStaleBaseW.prUrl,
          message := "Successfully synced with template " ++ "tplo" ++ "/" ++ "tplr" },
       [GitEvent.createdRef ("sync-template-" ++ envStaleBaseW.nowTimestamp) "defhead",
        GitEvent.calledCreateTree (some (envStaleBaseW.treeOf "defhead")),
        GitEvent.calledCreateTree none,
        GitEvent.createdCommit (defaultCommitMessage optsW tplCommitW.sha)
          "newtree" ["defhead"]
          (envStaleBaseW.newCommitSha (defaultCommitMessage optsW tplCommitW.sha)
            "newtree" ["defhead"]),
        GitEvent.updatedRef ("sync-template-" ++ envStaleBaseW.nowTimestamp)
          (envStaleBaseW.newCommitSha (defaultCommitMessage optsW tplCommitW.sha)
            "newtree" ["defhead"]),
        GitEvent.createdPullRequest (prTitleOf optsW)
          (prBodyOf optsW tplCommitW (filesToSyncOf envStaleBaseW).length)
          ("sync-template-" ++ envStaleBaseW.nowTimestamp) "main"]) :=
  (syncWithTemplate_base_tree_retry envStaleBaseW "tplo" "tplr" "tgto" "tgtr" "main"
    "defhead" "tree failed" tplCommitW
    rfl rfl (by decide) (by decide) (by decide) (by decide) rfl rfl).2
    { sha := "newtree", entries := [{ path := "src/app.ts", sha := "blob-code" }] }
    rfl

/-- C8: a successful sync with `directToMain: true` uses the default
branch itself as sync branch: no branch is created, the new commit's
parent is the current default-branch head, the default-branch ref is
advanced to the new commit, and no pull request is created — the result
carries no `pullRequestUrl`. -/
theorem syncWithTemplate_directToMain_flow
    (env : SyncEnv) (so sr tow trg db defSha : String) (tb : Option String)
    (b : Bool) (cm : Option String) (latest : CommitInfo) (t : TreeData)
    (hdb : env.targetDefaultBranch = some db)
    (hlatest : env.templateCommits.head? = some latest)
    (hdef : env.branchHead db = some defSha)
    (hfts : filesToSyncOf env ≠ [])
    (htree : createTree env (filesToSyncOf env) (some (env.treeOf defSha)) = Except.ok t) :
    syncWithTemplate env (SyncOptions.mk so sr tow trg tb b cm true) =
      (Except.ok
        { filesCount := (filesToSyncOf env).length,
          syncBranch := some db,
          pullRequestUrl := none,
          message := "Successfully synced with template " ++ so ++ "/" ++ sr },
       [GitEvent.calledCreateTree (some (env.treeOf defSha)),
        GitEvent.createdCommit
          (chosenCommitMessage (SyncOptions.mk so sr tow trg tb b cm true) latest.sha)
          t.sha [defSha]
          (env.newCommitSha
            (chosenCommitMessage (SyncOptions.mk so sr tow trg tb b cm true) latest.sha)
            t.sha [defSha]),
        GitEvent.updatedRef db
          (env.newCommitSha
            (chosenCommitMessage (SyncOptions.mk so sr tow trg tb b cm true) latest.sha)
            t.sha [defSha])]) := by
  have hfe : env.templateFiles.isEmpty = false := by
    rcases h : env.templateFiles with _ | ⟨f, fs⟩
    · exact absurd (by simp [filesToSyncOf, h]) hfts
    · simp [h]
  simp only [syncWithTemplate, syncWithTemplateInner, syncBranchNameOf,
    hdb, Option.getD_some, hlatest, hfe, hdef, htree]
  simp [hdef, htree]

/-- C8 witness: the direct-to-main sync against the concrete environment
advances `main` itself, with no `createdRef` or PR event and no
`pullRequestUrl`. -/
theorem syncWithTemplate_directToMain_flow_applied :
    syncWithTemplate envW optsDirectW =
      (Except.ok
        { filesCount := (filesToSyncOf envW).length,
          syncBranch := some "main",
          pullRequestUrl := none,
          message := "Successfully synced with template " ++ "tplo" ++ "/" ++ "tplr" },
       [GitEvent.calledCreateTree (some (envW.treeOf "defhead")),
        GitEvent.createdCommit (chosenCommitMessage optsDirectW tplCommitW.sha)
          "newtree" ["defhead"]
          (envW.newCommitSha (chosenCommitMessage optsDirectW tplCommitW.sha)
            "newtree" ["defhead"]),
        GitEvent.updatedRef "main"
          (envW.newCommitSha (chosenCommitMessage optsDirectW tplCommitW.sha)
            "newtree" ["defhead"])]) :=
  syncWithTemplate_directToMain_flow envW "tplo" "tplr" "tgto" "tgtr" "main" "defhead"
    none true none tplCommitW
    { sha := "newtree", entries := [{ path := "src/app.ts", sha := "blob-code" }] }
    rfl rfl (by decide) (by decide) rfl

/-- C9: when pull-request creation fails after the sync branch has been
created and advanced, the sync still returns success: the trace keeps
the `createdRef`, `createdCommit` and `updatedRef` writes (nothing is
undone), no PR event occurs, and the result carries no
`pullRequestUrl`. -/
theorem syncWithTemplate_pr_failure_nonfatal
    (env : SyncEnv) (so sr tow trg db defSha : String) (latest : CommitInfo) (t : TreeData)
    (hdb : env.targetDefaultBranch = some db)
    (hlatest : env.templateCommits.head? = some latest)
    (hfresh : env.branchHead ("sync-template-" ++ env.nowTimestamp) = none)
    (hne : "sync-template-" ++ env.nowTimestamp ≠ db)
    (hdef : env.branchHead db = some defSha)
    (hfts : filesToSyncOf env ≠ [])
    (htree : createTree env (filesToSyncOf env) (some (env.treeOf defSha)) = Except.ok t)
    (hpr : env.prOk = false) :
    syncWithTemplate env (SyncOptions.mk so sr tow trg none true none false) =
      (Except.ok
        { filesCount := (filesToSyncOf env).length,
          syncBranch := some ("sync-template-" ++ env.nowTimestamp),
          pullRequestUrl := none,
          message := "Successfully synced with template " ++ so ++ "/" ++ sr },
       [GitEvent.createdRef ("sync-template-" ++ env.nowTimestamp) defSha,
        GitEvent.calledCreateTree (some (env.treeOf defSha)),
        GitEvent.createdCommit
          (defaultCommitMessage (SyncOptions.mk so sr tow trg none true none false) latest.sha)
          t.sha [defSha]
          (env.newCommitSha
            (defaultCommitMessage (SyncOptions.mk so sr tow trg none true none false) latest.sha)
            t.sha [defSha]),
        GitEvent.updatedRef ("sync-template-" ++ env.nowTimestamp)
          (env.newCommitSha
            (defaultCommitMessage (SyncOptions.mk so sr tow trg none true none false) latest.sha)
            t.sha [defSha])]) := by
  have hfe : env.templateFiles.isEmpty = false := by
    rcases h : env.templateFiles with _ | ⟨f, fs⟩
    · exact absurd (by simp [filesToSyncOf, h]) hfts
    · simp [h]
  have hbne : (("sync-template-" ++ env.nowTimestamp) != db) = true := bne_iff_ne.mpr hne
  simp only [syncWithTemplate, syncWithTemplateInner, syncBranchNameOf, chosenCommitMessage,
    hdb, Option.getD_some, hlatest, hfe, hdef, hfresh, hbne, htree, hpr]
  simp [hfresh, hbne, htree, hpr]

/-- C9 witness: the concrete environment with failing PR creation keeps
the branch and commit writes and returns success without a PR URL. -/
theorem syncWithTemplate_pr_failure_nonfatal_applied :
    syncWithTemplate envPrFailW optsW =
      (Except.ok
        { filesCount := (filesToSyncOf envPrFailW).length,
          syncBranch := some ("sync-template-" ++ envPrFailW.nowTimestamp),
          pullRequestUrl := none,
          message := "Successfully synced with template " ++ "tplo" ++ "/" ++ "tplr" },
       [GitEvent.createdRef ("sync-template-" ++ envPrFailW.nowTimestamp) "defhead",
        GitEvent.calledCreateTree (some (envPrFailW.treeOf "defhead")),
        GitEvent.createdCommit (defaultCommitMessage optsW tplCommitW.sha)
          "newtree" ["defhead"]
          (envPrFailW.newCommitSha (defaultCommitMessage optsW tplCommitW.sha)
            "newtree" ["defhead"]),
        GitEvent.updatedRef ("sync-template-" ++ envPrFailW.nowTimestamp)
          (envPrFailW.newCommitSha (defaultCommitMessage optsW tplCommitW.sha)
            "newtree" ["defhead"])]) :=
  syncWithTemplate_pr_failure_nonfatal envPrFailW "tplo" "tplr" "tgto" "tgtr" "main"
    "defhead" tplCommitW
    { sha := "newtree", entries := [{ path := "src/app.ts", sha := "blob-code" }] }
    rfl rfl (by decide) (by decide) (by decide) (by decide) rfl rfl

/-- C10: a sync with a non-empty custom `commitMessage` creates the
commit with exactly the supplied string as message; the chosen message
adds no `template-sha:` trailer of its own, while the default message
(used when no `commitMessage` is supplied) embeds the trailer. -/
theorem syncWithTemplate_custom_message
    (env : SyncEnv) (so sr tow trg db defSha s : String) (latest : CommitInfo) (t : TreeData)
    (hs : s ≠ "")
    (hdb : env.targetDefaultBranch = some db)
    (hlatest : env.templateCommits.head? = some latest)
    (hfresh : env.branchHead ("sync-template-" ++ env.nowTimestamp) = none)
    (hne : "sync-template-" ++ env.nowTimestamp ≠ db)
    (hdef : env.branchHead db = some defSha)
    (hfts : filesToSyncOf env ≠ [])
    (htree : createTree env (filesToSyncOf env) (some (env.treeOf defSha)) = Except.ok t)
    (hpr : env.prOk = true) :
    syncWithTemplate env (SyncOptions.mk so sr tow trg none true (some s) false) =
      (Except.ok
        { filesCount := (filesToSyncOf env).length,
          syncBranch := some ("sync-template-" ++ env.nowTimestamp),
          pullRequestUrl := some env.prUrl,
          message := "Successfully synced with template " ++ so ++ "/" ++ sr },
       [GitEvent.createdRef ("sync-template-" ++ env.nowTimestamp) defSha,
        GitEvent.calledCreateTree (some (env.treeOf defSha)),
        GitEvent.createdCommit s t.sha [defSha] (env.newCommitSha s t.sha [defSha]),
        GitEvent.updatedRef ("sync-template-" ++ env.nowTimestamp)
          (env.newCommitSha s t.sha [defSha]),
        GitEvent.createdPullRequest
          (prTitleOf (SyncOptions.mk so sr tow trg none true (some s) false))
          (prBodyOf (SyncOptions.mk so sr tow trg none true (some s) false) latest
            (filesToSyncOf env).length)
          ("sync-template-" ++ env.nowTimestamp) db]) ∧
    chosenCommitMessage (SyncOptions.mk so sr tow trg none true (some s) false) latest.sha = s ∧
    substrContains
      (chosenCommitMessage (SyncOptions.mk so sr tow trg none true none false) latest.sha)
      (templateShaTrailer latest.sha) = true := by
  have hfe : env.templateFiles.isEmpty = false := by
    rcases h : env.templateFiles with _ | ⟨f, fs⟩
    · exact absurd (by simp [filesToSyncOf, h]) hfts
    · simp [h]
  have hbne : (("sync-template-" ++ env.nowTimestamp) != db) = true := bne_iff_ne.mpr hne
  have hsb : (s == "") = false := beq_eq_false_iff_ne.mpr hs
  have hmsg :
      chosenCommitMessage (SyncOptions.mk so sr tow trg none true (some s) false) latest.sha
        = s := by
    simp [chosenCommitMessage, hsb]
  refine ⟨?_, hmsg, ?_⟩
  · simp only [syncWithTemplate, syncWithTemplateInner, syncBranchNameOf, hmsg,
      hdb, Option.getD_some, hlatest, hfe, hdef, hfresh, hbne, htree, hpr]
    simp [hfresh, hbne, htree, hpr, hmsg]
  · simp only [chosenCommitMessage]
    exact defaultCommitMessage_has_trailer _ _

/-- C10 witness: a sync with the custom message `Custom message`
produces a commit carrying exactly that message. -/
theorem syncWithTemplate_custom_message_applied :
    syncWithTemplate envW optsCustomMsgW =
      (Except.ok
        { filesCount := (filesToSyncOf envW).length,
          syncBranch := some ("sync-template-" ++ envW.nowTimestamp),
          pullRequestUrl := some envW.prUrl,
          message := "Successfully synced with template " ++ "tplo" ++ "/" ++ "tplr" },
       [GitEvent.createdRef ("sync-template-" ++ envW.nowTimestamp) "defhead",
        GitEvent.calledCreateTree (some (envW.treeOf "defhead")),
        GitEvent.createdCommit "Custom message" "newtree" ["defhead"]
          (envW.newCommitSha "Custom message" "newtree" ["defhead"]),
        GitEvent.updatedRef ("sync-template-" ++ envW.nowTimestamp)
          (envW.newCommitSha "Custom message" "newtree" ["defhead"]),
        GitEvent.createdPullRequest (prTitleOf optsCustomMsgW)
          (prBodyOf optsCustomMsgW tplCommitW (filesToSyncOf envW).length)
          ("sync-template-" ++ envW.nowTimestamp) "main"]) ∧
    chosenCommitMessage optsCustomMsgW tplCommitW.sha = "Custom message" ∧
    substrContains (chosenCommitMessage optsW tplCommitW.sha)
      (templateShaTrailer tplCommitW.sha) = true :=
  syncWithTemplate_custom_message envW "tplo" "tplr" "tgto" "tgtr" "main" "defhead"
    "Custom message" tplCommitW
    { sha := "newtree", entries := [{ path := "src/app.ts", sha := "blob-code" }] }
    (by decide) rfl rfl (by decide) (by decide) (by decide) (by decide) rfl rfl
